import Mathlib

/-!
Verification of the lightweight OTG control-plane server
(`tools/traffic/lwotg/lwotg.go`).

The Go code is shallowly embedded: Go maps become association lists with
insertion-order iteration, the gRPC status errors become a structured
`RpcError`, and the observable side effects of a call (hint-channel sends,
`intf.AddIP` invocations, `intf.SendARP`) are collected into an explicit
event trace.  External collaborators (the `intf` package, `net.ParseCIDR`,
`prototext.Format`) are modelled as an `Env` record of oracle functions,
since they live outside the subsystem under study.
-/

deriving instance DecidableEq for Except

/-- gRPC status codes used by the server. -/
inductive Code where
  | invalidArgument
  | unimplemented
  | internal
  deriving DecidableEq, Repr

/-- A structured error: a status code plus the formatted message. -/
structure RpcError where
  code : Code
  msg : String
  deriving DecidableEq, Repr

/-- A hint sent on the hint channel (`lwotg.Hint`). -/
structure Hint where
  group : String
  key : String
  val : String
  deriving DecidableEq, Repr

/-- Observable side effects of a call on the host / hint channel. -/
inductive Event where
  | hint (h : Hint)
  | addIP (intfName : String) (ipNet : String)
  | sendARP
  deriving DecidableEq, Repr

/-- An IPv4 address attached to an Ethernet endpoint.  In the OTG proto the
prefix length is an optional `uint32`; `GetPrefix` yields 0 when unset. -/
structure Ipv4Address where
  address : String
  prefixLen : Option Nat
  deriving DecidableEq, Repr

/-- The getter `a.GetPrefix()` of the proto: the prefix length, defaulting to 0. -/
def Ipv4Address.getPrefixLen (a : Ipv4Address) : Nat :=
  a.prefixLen.getD 0

/-- An Ethernet endpoint of a device.  `PortName` is an optional string in
the proto; `GetPortName` yields "" when unset. -/
structure EthernetEndpoint where
  name : String
  portName : Option String
  ipv4Addresses : List Ipv4Address
  deriving DecidableEq, Repr

/-- The getter `e.GetPortName()` of the proto. -/
def EthernetEndpoint.getPortName (e : EthernetEndpoint) : String :=
  e.portName.getD ""

/-- A device owning Ethernet endpoints. -/
structure Device where
  ethernets : List EthernetEndpoint
  deriving DecidableEq, Repr

/-- A declared port: a name and an optional physical location. -/
structure Port where
  name : String
  location : Option String
  deriving DecidableEq, Repr

/-- The parts of `otg.Config` the server looks at.  The contents of the
unsupported fields (`Lags`, `Layer1`, `Captures`, `Options`) are never
inspected, only their emptiness, so they are carried as unit lists/options. -/
structure Config where
  ports : List Port
  devices : List Device
  lags : List Unit
  layer1 : List Unit
  captures : List Unit
  options : Option Unit
  deriving DecidableEq, Repr

/-- Association-list lookup, mirroring Go map indexing. -/
def lookupStr {α : Type} (m : List (String × α)) (k : String) : Option α :=
  match m with
  | [] => none
  | (k2, v) :: rest => if k2 = k then some v else lookupStr rest k

/-- Association-list insert, mirroring Go map assignment `m[k] = v`
(replaces an existing binding, otherwise appends). -/
def mapInsert {α : Type} (m : List (String × α)) (k : String) (v : α) :
    List (String × α) :=
  match m with
  | [] => [(k, v)]
  | (k2, v2) :: rest =>
      if k2 = k then (k2, v) :: rest else (k2, v2) :: mapInsert rest k v

/-- The `linuxIntf` struct: the desired IPv4 configuration of one Linux interface,
a map from address to prefix length. -/
structure linuxIntf where
  ipv4 : List (String × Nat)
  deriving DecidableEq, Repr

/-- The port loop of `portsToLinux` (lwotg.go lines 190-196): build the
port-name → location map, failing on the first port with no location. -/
def buildPhysIntf (acc : List (String × String)) :
    List Port → Except RpcError (List (String × String))
  | [] => .ok acc
  | p :: rest =>
    match p.location with
    | none =>
        .error ⟨.invalidArgument,
          "invalid interface " ++ p.name ++ ", does not specify a port location"⟩
    | some loc => buildPhysIntf (mapInsert acc p.name loc) rest

/-- The address loop of `portsToLinux` (lines 212-217): record each
address/prefix pair, failing on a zero prefix length. -/
def procAddrs (m : List (String × Nat)) :
    List Ipv4Address → Except RpcError (List (String × Nat))
  | [] => .ok m
  | a :: rest =>
    if a.getPrefixLen = 0 then
      .error ⟨.invalidArgument,
        "unsupported zero prefix length for address " ++ a.address⟩
    else procAddrs (mapInsert m a.address a.getPrefixLen) rest

/-- The Ethernet-endpoint loop of `portsToLinux` (lines 200-218): resolve
each endpoint's port, record the physical→logical mapping and re-initialise
the interface's desired addresses (`retIntf[n] = &linuxIntf{...}`), then
record the endpoint's addresses. -/
def processEndpoints (physIntf : List (String × String))
    (retIntf : List (String × linuxIntf)) (ethMap : List (String × String)) :
    List EthernetEndpoint →
      Except RpcError (List (String × linuxIntf) × List (String × String))
  | [] => .ok (retIntf, ethMap)
  | e :: rest =>
    if e.getPortName = "" then
      .error ⟨.invalidArgument,
        "invalid ethernet port, does not specify a name"⟩
    else
      match lookupStr physIntf e.getPortName with
      | none =>
          .error ⟨.invalidArgument,
            "invalid port name for Ethernet " ++ e.getPortName ++
              ", does not map to a real interface"⟩
      | some n =>
        match procAddrs [] e.ipv4Addresses with
        | .error er => .error er
        | .ok m =>
            processEndpoints physIntf (mapInsert retIntf n ⟨m⟩)
              (mapInsert ethMap n e.name) rest

/-- The device loop of `portsToLinux` (lines 199-219). -/
def processDevices (physIntf : List (String × String))
    (retIntf : List (String × linuxIntf)) (ethMap : List (String × String)) :
    List Device →
      Except RpcError (List (String × linuxIntf) × List (String × String))
  | [] => .ok (retIntf, ethMap)
  | d :: rest =>
    match processEndpoints physIntf retIntf ethMap d.ethernets with
    | .error e => .error e
    | .ok (ri, em) => processDevices physIntf ri em rest

/-- The function `portsToLinux` (lines 187-222): from declared ports and devices, the
desired per-interface address state and the physical→logical name map. -/
def portsToLinux (ports : List Port) (devices : List Device) :
    Except RpcError (List (String × linuxIntf) × List (String × String)) :=
  match buildPhysIntf [] ports with
  | .error e => .error e
  | .ok phys => processDevices phys [] [] devices

example :
    portsToLinux [⟨"p1", some "eth0"⟩]
      [⟨[⟨"e1", some "p1", [⟨"192.0.2.1", some 31⟩]⟩]⟩] =
      .ok ([("eth0", ⟨[("192.0.2.1", 31)]⟩)], [("eth0", "e1")]) := by
  decide

/-- The external collaborators of the server, as oracles: the `intf`
package's interface validation and address-add primitive, `net.ParseCIDR`
(returning the textual network on success), and the `prototext` rendering
used for the meta hint. -/
structure Env where
  validInterface : String → Bool
  parseCIDR : String → Nat → Option String
  addIP : String → String → Bool
  render : Config → String

/-- The method `Server.intfHasAddr` (lines 78-87): whether the applied cache records
`addr` as configured on interface `name`. -/
def intfHasAddr (cache : List (String × linuxIntf)) (name addr : String) :
    Bool :=
  match lookupStr cache name with
  | none => false
  | some v => (lookupStr v.ipv4 addr).isSome

/-- The address loop of `baseInterfaceConfig` (lines 156-169): parse each
desired address, skip it when the cache already records it, otherwise call
`intf.AddIP`; the trace records each `AddIP` invocation. -/
def applyAddrs (env : Env) (cache : List (String × linuxIntf))
    (intName : String) :
    List (String × Nat) → Except RpcError Unit × List Event
  | [] => (.ok (), [])
  | (addr, mask) :: rest =>
    match env.parseCIDR addr mask with
    | none =>
        (.error ⟨.invalidArgument,
          "invalid prefix " ++ addr ++ "/" ++ toString mask ++
            " for interface " ++ intName⟩, [])
    | some ipNet =>
      if intfHasAddr cache intName addr then
        applyAddrs env cache intName rest
      else if env.addIP intName ipNet then
        match applyAddrs env cache intName rest with
        | (r, evs) => (r, .addIP intName ipNet :: evs)
      else
        (.error ⟨.internal,
          "cannot configure address " ++ addr ++ " on interface " ++ intName⟩,
          [.addIP intName ipNet])

/-- The interface loop of `baseInterfaceConfig` (lines 151-170): validate
each interface name, then apply its desired addresses. -/
def applyIntfs (env : Env) (cache : List (String × linuxIntf)) :
    List (String × linuxIntf) → Except RpcError Unit × List Event
  | [] => (.ok (), [])
  | (n, li) :: rest =>
    if env.validInterface n then
      match applyAddrs env cache n li.ipv4 with
      | (.error e, evs) => (.error e, evs)
      | (.ok _, evs) =>
        match applyIntfs env cache rest with
        | (r, evs2) => (r, evs ++ evs2)
    else
      (.error ⟨.internal, "interface " ++ n ++ " is not configrable"⟩, [])

/-- The method `Server.baseInterfaceConfig` (lines 132-176): translate the
configuration via `portsToLinux`, emit one `interface_map` hint per
physical→logical mapping when a hint channel is set, apply the addresses,
and send ARP on success.  Faithful to the source, it never writes the
applied cache (`cacheInterfaces` has no caller). -/
def baseInterfaceConfig (hintChSet : Bool) (cache : List (String × linuxIntf))
    (env : Env) (c : Config) : Except RpcError Unit × List Event :=
  match portsToLinux c.ports c.devices with
  | .error e => (.error e, [])
  | .ok (ifCfg, ethMap) =>
    let hintEvs : List Event :=
      if hintChSet then
        ethMap.map (fun kv => .hint ⟨"interface_map", kv.1, kv.2⟩)
      else []
    match applyIntfs env cache ifCfg with
    | (.error e, evs) => (.error e, hintEvs ++ evs)
    | (.ok _, evs) => (.ok (), hintEvs ++ evs ++ [.sendARP])

/-- A configuration handler (`func(*otg.Config) error`), with its
observable events. -/
def Handler : Type := Config → Except RpcError Unit × List Event

/-- The handler loop of `SetConfig` (lines 107-111): run handlers in
registration order, stopping at the first error.  Also returns the number
of handlers invoked. -/
def runHandlers : List Handler → Config → Except RpcError Unit × List Event × Nat
  | [], _ => (.ok (), [], 0)
  | fn :: rest, c =>
    match fn c with
    | (.error e, evs) => (.error e, evs, 1)
    | (.ok _, evs) =>
      match runHandlers rest c with
      | (r, evs2, k) => (r, evs ++ evs2, k + 1)

/-- The meta hint emitted by `SetConfig` (line 98). -/
def metaHint (env : Env) (c : Config) : Hint :=
  ⟨"meta", "SetConfig", env.render c⟩

/-- The unsupported-field test of `SetConfig` (line 103). -/
def hasUnsupported (c : Config) : Bool :=
  c.lags.length != 0 || c.layer1.length != 0 || c.captures.length != 0 ||
    c.options.isSome

/-- Outcome of a `SetConfig` call: result, stored configuration afterward,
event trace, and how many handlers were invoked. -/
structure SetConfigOut where
  result : Except RpcError Unit
  stored : Option Config
  events : List Event
  invoked : Nat
  deriving DecidableEq, Repr

/-- The RPC `Server.SetConfig` (lines 90-116) over an arbitrary handler list:
reject a nil configuration, emit the best-effort meta hint, reject
unsupported fields, run the handlers in order, and store the configuration
on full success. -/
def setConfig (env : Env) (handlers : List Handler) (hintChSet : Bool)
    (stored : Option Config) (req : Option Config) : SetConfigOut :=
  match req with
  | none =>
      ⟨.error ⟨.invalidArgument, "invalid request configuration received"⟩,
        stored, [], 0⟩
  | some c =>
    let ev0 : List Event :=
      if hintChSet then [.hint (metaHint env c)] else []
    if hasUnsupported c then
      ⟨.error ⟨.unimplemented, "request contained fields that are unimplemented"⟩,
        stored, ev0, 0⟩
    else
      match runHandlers handlers c with
      | (.error e, evs, k) => ⟨.error e, stored, ev0 ++ evs, k⟩
      | (.ok _, evs, k) => ⟨.ok (), some c, ev0 ++ evs, k⟩

/-- The server state touched by the modelled RPCs: the applied-address
cache, the stored current configuration, and whether a hint channel has
been set. -/
structure ServerState where
  intf : List (String × linuxIntf)
  cfg : Option Config
  hintChSet : Bool
  deriving DecidableEq, Repr

/-- The constructor `New()` (lines 23-30) followed by `SetHintChannel`: empty cache, no
stored configuration. -/
def newServer (hintChSet : Bool) : ServerState :=
  ⟨[], none, hintChSet⟩

/-- Outcome of one `SetConfig` RPC against the server built by `New()`. -/
structure StepOut where
  result : Except RpcError Unit
  state : ServerState
  events : List Event
  deriving DecidableEq, Repr

/-- One `SetConfig` call on the `New()` server, whose handler pipeline is
exactly `[baseInterfaceConfig]`.  The applied cache is left unchanged by
the call, as in the source (`cacheInterfaces` is never invoked). -/
def setConfigServer (env : Env) (s : ServerState) (req : Option Config) :
    StepOut :=
  let o := setConfig env [baseInterfaceConfig s.hintChSet s.intf env]
    s.hintChSet s.cfg req
  ⟨o.result, ⟨s.intf, o.stored, s.hintChSet⟩, o.events⟩

/-- A protocol handler (`func(*otg.Config, otg.ProtocolState_State_Enum) error`);
the state enum is carried as a natural number. -/
def PHandler : Type := Option Config → Nat → Except RpcError Unit

/-- Outcome of a Go function call that may panic (a nil function value
invocation panics at runtime). -/
inductive CallOutcome (α : Type) where
  | panics
  | returns (a : α)
  deriving DecidableEq, Repr

/-- The RPC `Server.SetProtocolState` (lines 118-125): delegates to the protocol
handler with the stored configuration; the handler field is invoked without
a nil guard, so a server with no registered handler panics. -/
def setProtocolState (handler : Option PHandler) (storedCfg : Option Config)
    (st : Nat) : CallOutcome (Except RpcError Unit) :=
  match handler with
  | none => .panics
  | some fn =>
    match fn storedCfg st with
    | .error e => .returns (.error e)
    | .ok _ => .returns (.ok ())

/-- A transmit-state request; its contents are never inspected. -/
structure TransmitStateRequest where
  state : Option Nat
  deriving DecidableEq, Repr

/-- The RPC `Server.SetTransmitState` (lines 127-130): acknowledge unconditionally,
touching no server state. -/
def setTransmitState (s : ServerState) (_req : TransmitStateRequest) :
    Except RpcError Unit × ServerState :=
  (.ok (), s)

/-- The end-to-end scenario configuration of the spec: one port `p1` at
`eth0`, one Ethernet endpoint `e1` bound to `p1` carrying 192.0.2.1/31. -/
def scenarioCfg : Config :=
  ⟨[⟨"p1", some "eth0"⟩],
    [⟨[⟨"e1", some "p1", [⟨"192.0.2.1", some 31⟩]⟩]⟩],
    [], [], [], none⟩

/-- A host environment where `eth0` is configurable, 192.0.2.1/31 parses
to 192.0.2.0/31, and every `AddIP` succeeds. -/
def scenarioEnv : Env :=
  ⟨fun n => n == "eth0",
    fun a m => if a == "192.0.2.1" && m == 31 then some "192.0.2.0/31" else none,
    fun _ _ => true,
    fun _ => "scenario"⟩

/-- Event filter: `AddIP` invocations. -/
def isAddIPEv : Event → Bool
  | .addIP _ _ => true
  | _ => false

/-- Event filter: hints in the `interface_map` group. -/
def isIfMapHintEv : Event → Bool
  | .hint h => h.group == "interface_map"
  | _ => false

/-- First push of the scenario configuration on a fresh server. -/
def push1 : StepOut := setConfigServer scenarioEnv (newServer false) (some scenarioCfg)

/-- Second push of the identical configuration on the resulting state. -/
def push2 : StepOut := setConfigServer scenarioEnv push1.state (some scenarioCfg)

/-- C1: the claim says a second push of the identical valid configuration
makes no additional `AddIP` call.  In the code the applied cache is never
written (`cacheInterfaces` has no caller), so `intfHasAddr` is always false
and the second push issues `AddIP` for 192.0.2.1 again: both pushes succeed
and each makes exactly one `AddIP` call. -/
theorem c1_second_push_repeats_addIP :
    push1.result = .ok () ∧
    push1.events.filter isAddIPEv = [.addIP "eth0" "192.0.2.0/31"] ∧
    push2.result = .ok () ∧
    push2.events.filter isAddIPEv = [.addIP "eth0" "192.0.2.0/31"] := by
  decide

/-- C2: the claim says that after a successful push the applied cache equals
the desired state (`eth0 -> {192.0.2.1: 31}`).  The reconciler computes that
desired state, and the push succeeds, but the cache afterward is still empty
because `cacheInterfaces` is never invoked. -/
theorem c2_cache_never_replaced :
    push1.result = .ok () ∧
    portsToLinux scenarioCfg.ports scenarioCfg.devices =
      .ok ([("eth0", ⟨[("192.0.2.1", 31)]⟩)], [("eth0", "e1")]) ∧
    push1.state.intf = [] := by
  decide

/-- C3: the claim says `SetProtocolState` before handler registration
returns an internal error without crashing.  The code invokes the nil
handler function unguarded, which panics: on the fresh server the call
panics instead of returning an error. -/
theorem c3_nil_handler_invocation_panics :
    setProtocolState none (newServer false).cfg 0 = .panics := by
  decide

/-- C9: `SetTransmitState` acknowledges every request unconditionally and
performs no state change. -/
theorem c9_setTransmitState_always_acks (s : ServerState)
    (req : TransmitStateRequest) : setTransmitState s req = (.ok (), s) :=
  rfl

/-- A configuration in the scope of C4/C7: the scenario topology plus a
non-empty `Lags` field. -/
def c4cfg : Config :=
  ⟨[⟨"p1", some "eth0"⟩],
    [⟨[⟨"e1", some "p1", [⟨"192.0.2.1", some 31⟩]⟩]⟩],
    [()], [], [], none⟩

/-- C4 counterexample: a configuration rejected as unimplemented still
produces the "meta" hint, because `SetConfig` emits the hint before the
unsupported-field validation (lines 96-105). -/
theorem c4_rejected_config_still_hinted :
    (setConfigServer scenarioEnv (newServer true) (some c4cfg)).result =
      .error ⟨.unimplemented, "request contained fields that are unimplemented"⟩ ∧
    (setConfigServer scenarioEnv (newServer true) (some c4cfg)).events =
      [.hint ⟨"meta", "SetConfig", "scenario"⟩] := by
  decide

/-- C4 (amended): the meta hint is emitted before the unsupported-field
validation, so a configuration rejected as unimplemented still produces the
meta hint whenever a hint channel is set; no handler runs. -/
theorem c4_amended_hint_precedes_validation (env : Env) (hs : List Handler)
    (stored : Option Config) (c : Config) (h : hasUnsupported c = true) :
    setConfig env hs true stored (some c) =
      ⟨.error ⟨.unimplemented, "request contained fields that are unimplemented"⟩,
        stored, [.hint (metaHint env c)], 0⟩ := by
  simp [setConfig, h]

/-- Witness for the amended C4 at the concrete rejected configuration. -/
theorem c4_amended_witness :
    hasUnsupported c4cfg = true ∧
    setConfig scenarioEnv [] true none (some c4cfg) =
      ⟨.error ⟨.unimplemented, "request contained fields that are unimplemented"⟩,
        none, [.hint (metaHint scenarioEnv c4cfg)], 0⟩ :=
  ⟨by decide, c4_amended_hint_precedes_validation scenarioEnv [] none c4cfg (by decide)⟩

/-- C5: a configuration with non-empty `Lags`, `Layer1` or `Captures`, or a
non-nil `Options`, is rejected as unimplemented regardless of the rest of
its content, with zero configuration handlers invoked. -/
theorem c5_unsupported_fields_rejected (env : Env) (hs : List Handler)
    (hint : Bool) (stored : Option Config) (c : Config)
    (h : hasUnsupported c = true) :
    (setConfig env hs hint stored (some c)).result =
      .error ⟨.unimplemented, "request contained fields that are unimplemented"⟩ ∧
    (setConfig env hs hint stored (some c)).invoked = 0 ∧
    (setConfig env hs hint stored (some c)).stored = stored := by
  simp [setConfig, h]

/-- Witness for C5 at a concrete configuration with a non-nil `Options`. -/
theorem c5_witness :
    hasUnsupported ⟨[], [], [], [], [], some ()⟩ = true ∧
    (setConfig scenarioEnv [] false none (some ⟨[], [], [], [], [], some ()⟩)).result =
      .error ⟨.unimplemented, "request contained fields that are unimplemented"⟩ ∧
    (setConfig scenarioEnv [] false none (some ⟨[], [], [], [], [], some ()⟩)).invoked = 0 ∧
    (setConfig scenarioEnv [] false none (some ⟨[], [], [], [], [], some ()⟩)).stored = none :=
  ⟨by decide, c5_unsupported_fields_rejected scenarioEnv [] false none
    ⟨[], [], [], [], [], some ()⟩ (by decide)⟩

/-- If every handler in the list succeeds, `runHandlers` succeeds, invokes
all of them, and the trace is their traces concatenated in registration
order. -/
theorem runHandlers_all_ok (c : Config) :
    ∀ hs : List Handler, (∀ h ∈ hs, (h c).1 = .ok ()) →
      runHandlers hs c =
        (.ok (), (hs.map (fun h => (h c).2)).flatten, hs.length) := by
  intro hs
  induction hs with
  | nil => intro _; rfl
  | cons f rest ih =>
    intro hall
    have hf : (f c).1 = .ok () := hall f (List.mem_cons_self f rest)
    have hrest : ∀ h ∈ rest, (h c).1 = .ok () :=
      fun h hm => hall h (List.mem_cons_of_mem f hm)
    rcases hfc : f c with ⟨r, evs⟩
    have hr : r = .ok () := by rw [hfc] at hf; exact hf
    subst hr
    simp [runHandlers, hfc, ih hrest]

/-- If every handler of `pre` succeeds and `f` fails with `e`, then running
`pre ++ f :: post` stops at `f`: the error is returned as-is, exactly
`pre.length + 1` handlers are invoked, and the trace holds the successful
traces followed by the failing handler's trace. -/
theorem runHandlers_first_error (c : Config) (f : Handler) (e : RpcError)
    (post : List Handler) :
    ∀ pre : List Handler, (∀ h ∈ pre, (h c).1 = .ok ()) → (f c).1 = .error e →
      runHandlers (pre ++ f :: post) c =
        (.error e, (pre.map (fun h => (h c).2)).flatten ++ (f c).2,
          pre.length + 1) := by
  intro pre
  induction pre with
  | nil =>
    intro _ hferr
    rcases hfc : f c with ⟨r, evs⟩
    have hr : r = .error e := by rw [hfc] at hferr; exact hferr
    subst hr
    simp [runHandlers, hfc]
  | cons g rest ih =>
    intro hall hferr
    have hg : (g c).1 = .ok () := hall g (List.mem_cons_self g rest)
    have hrest : ∀ h ∈ rest, (h c).1 = .ok () :=
      fun h hm => hall h (List.mem_cons_of_mem g hm)
    rcases hgc : g c with ⟨r, evs⟩
    have hr : r = .ok () := by rw [hgc] at hg; exact hg
    subst hr
    simp [runHandlers, hgc, ih hrest hferr]

/-- C6: `SetConfig` invokes the registered handlers in registration order;
when all succeed the configuration is stored (replacing any prior one) and
the call succeeds; the first handler error aborts the call, is returned to
the caller unchanged, and leaves the previously stored configuration
untouched (later handlers are not invoked). -/
theorem c6_handler_pipeline :
    (∀ (env : Env) (hint : Bool) (stored : Option Config) (c : Config)
        (hs : List Handler), hasUnsupported c = false →
        (∀ h ∈ hs, (h c).1 = .ok ()) →
        setConfig env hs hint stored (some c) =
          ⟨.ok (), some c,
            (if hint then [.hint (metaHint env c)] else []) ++
              (hs.map (fun h => (h c).2)).flatten, hs.length⟩) ∧
    (∀ (env : Env) (hint : Bool) (stored : Option Config) (c : Config)
        (pre post : List Handler) (f : Handler) (e : RpcError),
        hasUnsupported c = false →
        (∀ h ∈ pre, (h c).1 = .ok ()) → (f c).1 = .error e →
        setConfig env (pre ++ f :: post) hint stored (some c) =
          ⟨.error e, stored,
            (if hint then [.hint (metaHint env c)] else []) ++
              ((pre.map (fun h => (h c).2)).flatten ++ (f c).2),
            pre.length + 1⟩) := by
  constructor
  · intro env hint stored c hs hu hall
    simp [setConfig, hu, runHandlers_all_ok c hs hall]
  · intro env hint stored c pre post f e hu hall hferr
    simp [setConfig, hu, runHandlers_first_error c f e post pre hall hferr]

/-- A test handler that succeeds and emits an identifying hint. -/
def okHandlerA : Handler := fun _ => (.ok (), [.hint ⟨"test", "A", ""⟩])

/-- A second succeeding test handler with a distinct trace. -/
def okHandlerB : Handler := fun _ => (.ok (), [.hint ⟨"test", "B", ""⟩])

/-- A test handler that fails. -/
def failHandlerC : Handler :=
  fun _ => (.error ⟨.internal, "boom"⟩, [.hint ⟨"test", "C", ""⟩])

/-- Witness for C6: both branches applied to concrete handler lists. -/
theorem c6_witness :
    setConfig scenarioEnv [okHandlerA, okHandlerB] false none (some scenarioCfg) =
      ⟨.ok (), some scenarioCfg,
        [.hint ⟨"test", "A", ""⟩, .hint ⟨"test", "B", ""⟩], 2⟩ ∧
    setConfig scenarioEnv [okHandlerA, failHandlerC, okHandlerB] false
        (some c4cfg) (some scenarioCfg) =
      ⟨.error ⟨.internal, "boom"⟩, some c4cfg,
        [.hint ⟨"test", "A", ""⟩, .hint ⟨"test", "C", ""⟩], 2⟩ := by
  constructor
  · have h := c6_handler_pipeline.1 scenarioEnv false none scenarioCfg
      [okHandlerA, okHandlerB] (by decide)
      (by intro h hm
          simp [List.mem_cons] at hm
          rcases hm with rfl | rfl <;> rfl)
    simpa [okHandlerA, okHandlerB] using h
  · have h := c6_handler_pipeline.2 scenarioEnv false (some c4cfg) scenarioCfg
      [okHandlerA] [okHandlerB] failHandlerC ⟨.internal, "boom"⟩ (by decide)
      (by intro h hm
          simp [List.mem_cons] at hm
          subst hm
          rfl)
      (by rfl)
    simpa [okHandlerA, failHandlerC] using h

/-- Every error raised by the port loop is an invalid-argument error. -/
theorem buildPhysIntf_error_code (e : RpcError) :
    ∀ (ports : List Port) (acc : List (String × String)),
      buildPhysIntf acc ports = .error e → e.code = .invalidArgument := by
  intro ports
  induction ports with
  | nil => intro acc h; simp [buildPhysIntf] at h
  | cons p rest ih =>
    intro acc h
    cases hl : p.location with
    | none =>
      simp [buildPhysIntf, hl] at h
      rw [← h]
    | some loc =>
      simp [buildPhysIntf, hl] at h
      exact ih _ h

/-- Every error raised by the address loop is an invalid-argument error. -/
theorem procAddrs_error_code (e : RpcError) :
    ∀ (addrs : List Ipv4Address) (m : List (String × Nat)),
      procAddrs m addrs = .error e → e.code = .invalidArgument := by
  intro addrs
  induction addrs with
  | nil => intro m h; simp [procAddrs] at h
  | cons a rest ih =>
    intro m h
    by_cases hz : a.getPrefixLen = 0
    · simp [procAddrs, hz] at h
      rw [← h]
    · simp [procAddrs, hz] at h
      exact ih _ h

/-- Every error raised by the endpoint loop is an invalid-argument error. -/
theorem processEndpoints_error_code (e : RpcError) :
    ∀ (es : List EthernetEndpoint) (phys : List (String × String))
      (ri : List (String × linuxIntf)) (em : List (String × String)),
      processEndpoints phys ri em es = .error e →
      e.code = .invalidArgument := by
  intro es
  induction es with
  | nil => intro phys ri em h; simp [processEndpoints] at h
  | cons ep rest ih =>
    intro phys ri em h
    by_cases hn : ep.getPortName = ""
    · simp [processEndpoints, hn] at h
      rw [← h]
    · cases hlk : lookupStr phys ep.getPortName with
      | none =>
        simp [processEndpoints, hn, hlk] at h
        rw [← h]
      | some n =>
        cases hpa : procAddrs [] ep.ipv4Addresses with
        | error er =>
          simp [processEndpoints, hn, hlk, hpa] at h
          rw [← h]
          exact procAddrs_error_code er ep.ipv4Addresses [] hpa
        | ok m =>
          simp [processEndpoints, hn, hlk, hpa] at h
          exact ih _ _ _ h

/-- Every error raised by the device loop is an invalid-argument error. -/
theorem processDevices_error_code (e : RpcError) :
    ∀ (ds : List Device) (phys : List (String × String))
      (ri : List (String × linuxIntf)) (em : List (String × String)),
      processDevices phys ri em ds = .error e → e.code = .invalidArgument := by
  intro ds
  induction ds with
  | nil => intro phys ri em h; simp [processDevices] at h
  | cons d rest ih =>
    intro phys ri em h
    cases hpe : processEndpoints phys ri em d.ethernets with
    | error er =>
      simp [processDevices, hpe] at h
      rw [← h]
      exact processEndpoints_error_code er d.ethernets phys ri em hpe
    | ok r =>
      rcases r with ⟨ri2, em2⟩
      simp [processDevices, hpe] at h
      exact ih _ _ _ h

/-- Every error raised by `portsToLinux` is an invalid-argument error. -/
theorem portsToLinux_error_code (ports : List Port) (devices : List Device)
    (e : RpcError) (h : portsToLinux ports devices = .error e) :
    e.code = .invalidArgument := by
  cases hb : buildPhysIntf [] ports with
  | error er =>
    simp [portsToLinux, hb] at h
    rw [← h]
    exact buildPhysIntf_error_code er ports [] hb
  | ok phys =>
    simp [portsToLinux, hb] at h
    exact processDevices_error_code e devices phys [] [] h

/-- If the address loop succeeds, no processed address had a zero prefix
length. -/
theorem procAddrs_ok_nonzero :
    ∀ (addrs : List Ipv4Address) (m m2 : List (String × Nat)),
      procAddrs m addrs = .ok m2 → ∀ a ∈ addrs, a.getPrefixLen ≠ 0 := by
  intro addrs
  induction addrs with
  | nil => intro m m2 _ a ha; simp at ha
  | cons a0 rest ih =>
    intro m m2 h a ha
    by_cases hz : a0.getPrefixLen = 0
    · simp [procAddrs, hz] at h
    · simp [procAddrs, hz] at h
      rcases List.mem_cons.mp ha with rfl | hmem
      · exact hz
      · exact ih _ _ h a hmem

/-- If the endpoint loop succeeds, no address of any processed endpoint had
a zero prefix length. -/
theorem processEndpoints_ok_nonzero :
    ∀ (es : List EthernetEndpoint) (phys : List (String × String))
      (ri : List (String × linuxIntf)) (em : List (String × String)) r,
      processEndpoints phys ri em es = .ok r →
      ∀ e ∈ es, ∀ a ∈ e.ipv4Addresses, a.getPrefixLen ≠ 0 := by
  intro es
  induction es with
  | nil => intro phys ri em r _ e he; simp at he
  | cons ep rest ih =>
    intro phys ri em r h e he
    by_cases hn : ep.getPortName = ""
    · simp [processEndpoints, hn] at h
    · cases hlk : lookupStr phys ep.getPortName with
      | none => simp [processEndpoints, hn, hlk] at h
      | some n =>
        cases hpa : procAddrs [] ep.ipv4Addresses with
        | error er => simp [processEndpoints, hn, hlk, hpa] at h
        | ok m =>
          simp [processEndpoints, hn, hlk, hpa] at h
          rcases List.mem_cons.mp he with rfl | hmem
          · exact procAddrs_ok_nonzero e.ipv4Addresses [] m hpa
          · exact ih _ _ _ _ h e hmem

/-- If the device loop succeeds, no address of any endpoint of any
processed device had a zero prefix length. -/
theorem processDevices_ok_nonzero :
    ∀ (ds : List Device) (phys : List (String × String))
      (ri : List (String × linuxIntf)) (em : List (String × String)) r,
      processDevices phys ri em ds = .ok r →
      ∀ d ∈ ds, ∀ e ∈ d.ethernets, ∀ a ∈ e.ipv4Addresses,
        a.getPrefixLen ≠ 0 := by
  intro ds
  induction ds with
  | nil => intro phys ri em r _ d hd; simp at hd
  | cons d0 rest ih =>
    intro phys ri em r h d hd
    cases hpe : processEndpoints phys ri em d0.ethernets with
    | error er => simp [processDevices, hpe] at h
    | ok r2 =>
      rcases r2 with ⟨ri2, em2⟩
      simp [processDevices, hpe] at h
      rcases List.mem_cons.mp hd with rfl | hmem
      · exact processEndpoints_ok_nonzero d.ethernets phys ri em _ hpe
      · exact ih _ _ _ _ h d hmem

/-- Whether some Ethernet endpoint of the configuration declares an IPv4
address with zero prefix length. -/
def hasZeroPrefixAddrB (c : Config) : Bool :=
  c.devices.any (fun d => d.ethernets.any (fun e =>
    e.ipv4Addresses.any (fun a => a.getPrefixLen == 0)))

/-- A configuration declaring a zero-prefix address is always rejected by
`portsToLinux`, and with an invalid-argument error. -/
theorem portsToLinux_zero_rejected (c : Config)
    (h : hasZeroPrefixAddrB c = true) :
    ∃ e : RpcError, portsToLinux c.ports c.devices = .error e ∧
      e.code = .invalidArgument := by
  simp only [hasZeroPrefixAddrB, List.any_eq_true, beq_iff_eq] at h
  obtain ⟨d, hd, e, he, a, ha, hz⟩ := h
  cases hp : portsToLinux c.ports c.devices with
  | error er => exact ⟨er, rfl, portsToLinux_error_code c.ports c.devices er hp⟩
  | ok r =>
    exfalso
    cases hb : buildPhysIntf [] c.ports with
    | error er => simp [portsToLinux, hb] at hp
    | ok phys =>
      simp [portsToLinux, hb] at hp
      exact processDevices_ok_nonzero c.devices phys [] [] r hp d hd e he a ha hz

/-- A zero-prefix configuration that also carries a non-empty `Lags`
field, showing the unimplemented check preempts the invalid-argument one. -/
def c7cfg : Config :=
  ⟨[⟨"p1", some "eth0"⟩],
    [⟨[⟨"e1", some "p1", [⟨"192.0.2.1", none⟩]⟩]⟩],
    [()], [], [], none⟩

/-- C7 counterexample: a configuration declaring a zero-prefix address is
not always rejected with invalid-argument naming the address — when it also
carries an unsupported field, `SetConfig` rejects it as unimplemented
(and names no address). -/
theorem c7_unimplemented_preempts_zero :
    hasZeroPrefixAddrB c7cfg = true ∧
    (setConfigServer scenarioEnv (newServer false) (some c7cfg)).result =
      .error ⟨.unimplemented, "request contained fields that are unimplemented"⟩ := by
  decide

/-- C7 (amended): for a configuration without unsupported fields in which
some Ethernet endpoint declares a zero-prefix IPv4 address, `SetConfig`
fails with an invalid-argument error and no `AddIP` call is made. -/
theorem c7_amended_zero_rejected_before_apply (env : Env) (s : ServerState)
    (c : Config) (h1 : hasUnsupported c = false)
    (h2 : hasZeroPrefixAddrB c = true) :
    ∃ er : RpcError,
      (setConfigServer env s (some c)).result = .error er ∧
      er.code = .invalidArgument ∧
      (setConfigServer env s (some c)).events.filter isAddIPEv = [] := by
  obtain ⟨er, hp, hcode⟩ := portsToLinux_zero_rejected c h2
  have hbase : baseInterfaceConfig s.hintChSet s.intf env c = (.error er, []) := by
    simp [baseInterfaceConfig, hp]
  refine ⟨er, ?_, hcode, ?_⟩
  · simp [setConfigServer, setConfig, runHandlers, hbase, h1]
  · cases hh : s.hintChSet <;>
      rw [hh] at hbase <;>
      simp [setConfigServer, setConfig, runHandlers, hbase, h1, hh,
        isAddIPEv, metaHint]

/-- The zero-prefix configuration of the amended C7, with no unsupported
fields. -/
def c7okCfg : Config :=
  ⟨[⟨"p1", some "eth0"⟩],
    [⟨[⟨"e1", some "p1", [⟨"192.0.2.1", none⟩]⟩]⟩],
    [], [], [], none⟩

/-- Witness for the amended C7 at the concrete zero-prefix configuration. -/
theorem c7_amended_witness :
    hasUnsupported c7okCfg = false ∧ hasZeroPrefixAddrB c7okCfg = true ∧
    ∃ er : RpcError,
      (setConfigServer scenarioEnv (newServer true) (some c7okCfg)).result =
        .error er ∧
      er.code = .invalidArgument ∧
      (setConfigServer scenarioEnv (newServer true) (some c7okCfg)).events.filter
        isAddIPEv = [] :=
  ⟨by decide, by decide,
    c7_amended_zero_rejected_before_apply scenarioEnv (newServer true) c7okCfg
      (by decide) (by decide)⟩

/-- The first declared port lacking a physical location, if any. -/
def firstNoLocPort (ports : List Port) : Option Port :=
  ports.find? (fun p => p.location.isNone)

/-- The port loop fails on the first port lacking a location, with an
invalid-argument error naming that port. -/
theorem buildPhysIntf_first_noloc (p0 : Port) :
    ∀ (ports : List Port) (acc : List (String × String)),
      firstNoLocPort ports = some p0 →
      buildPhysIntf acc ports =
        .error ⟨.invalidArgument,
          "invalid interface " ++ p0.name ++
            ", does not specify a port location"⟩ := by
  intro ports
  induction ports with
  | nil => intro acc h; simp [firstNoLocPort] at h
  | cons p rest ih =>
    intro acc h
    cases hl : p.location with
    | none =>
      have hp : p = p0 := by
        simp [firstNoLocPort, List.find?, hl] at h
        exact h
      subst hp
      simp [buildPhysIntf, hl]
    | some loc =>
      have h2 : firstNoLocPort rest = some p0 := by
        simpa [firstNoLocPort, List.find?, hl] using h
      simp [buildPhysIntf, hl]
      exact ih _ h2

/-- C8 (amended): for a configuration without unsupported fields containing
a port with no location, `SetConfig` fails with an invalid-argument error
naming the first such port, no `interface_map` hint is emitted, and no
`AddIP` call is made. -/
theorem c8_amended_noloc_port_rejected (env : Env) (s : ServerState)
    (c : Config) (p0 : Port) (h1 : hasUnsupported c = false)
    (h2 : firstNoLocPort c.ports = some p0) :
    (setConfigServer env s (some c)).result =
      .error ⟨.invalidArgument,
        "invalid interface " ++ p0.name ++
          ", does not specify a port location"⟩ ∧
    (setConfigServer env s (some c)).events.filter isIfMapHintEv = [] ∧
    (setConfigServer env s (some c)).events.filter isAddIPEv = [] := by
  have hb := buildPhysIntf_first_noloc p0 c.ports [] h2
  have hp : portsToLinux c.ports c.devices =
      .error ⟨.invalidArgument,
        "invalid interface " ++ p0.name ++
          ", does not specify a port location"⟩ := by
    simp [portsToLinux, hb]
  have hbase : baseInterfaceConfig s.hintChSet s.intf env c =
      (.error ⟨.invalidArgument,
        "invalid interface " ++ p0.name ++
          ", does not specify a port location"⟩, []) := by
    simp [baseInterfaceConfig, hp]
  refine ⟨?_, ?_, ?_⟩ <;>
    cases hh : s.hintChSet <;>
    rw [hh] at hbase <;>
    simp [setConfigServer, setConfig, runHandlers, hbase, h1, hh,
      isIfMapHintEv, isAddIPEv, metaHint]

/-- A configuration with a location-less port that also carries a non-empty
`Lags` field. -/
def c8cfg : Config := ⟨[⟨"p1", none⟩], [], [()], [], [], none⟩

/-- C8 counterexample: a configuration containing a port with no location
is not always rejected with invalid-argument naming the port — when it also
carries an unsupported field, `SetConfig` rejects it as unimplemented. -/
theorem c8_unimplemented_preempts_noloc :
    (∃ p ∈ c8cfg.ports, p.location = none) ∧
    (setConfigServer scenarioEnv (newServer false) (some c8cfg)).result =
      .error ⟨.unimplemented, "request contained fields that are unimplemented"⟩ := by
  decide

/-- The location-less-port configuration of the amended C8, with no
unsupported fields. -/
def c8okCfg : Config :=
  ⟨[⟨"p0", some "eth0"⟩, ⟨"p1", none⟩],
    [⟨[⟨"e1", some "p0", [⟨"192.0.2.1", some 31⟩]⟩]⟩],
    [], [], [], none⟩

/-- Witness for the amended C8 at a concrete configuration whose second
port lacks a location. -/
theorem c8_amended_witness :
    hasUnsupported c8okCfg = false ∧
    firstNoLocPort c8okCfg.ports = some ⟨"p1", none⟩ ∧
    (setConfigServer scenarioEnv (newServer true) (some c8okCfg)).result =
      .error ⟨.invalidArgument,
        "invalid interface p1, does not specify a port location"⟩ ∧
    (setConfigServer scenarioEnv (newServer true) (some c8okCfg)).events.filter
      isIfMapHintEv = [] ∧
    (setConfigServer scenarioEnv (newServer true) (some c8okCfg)).events.filter
      isAddIPEv = [] :=
  ⟨by decide, by decide,
    c8_amended_noloc_port_rejected scenarioEnv (newServer true) c8okCfg
      ⟨"p1", none⟩ (by decide) (by decide)⟩

/-- C10: when two Ethernet endpoints of one device resolve to the same
physical interface, the desired-address state returned by `portsToLinux`
for that interface holds only the addresses of the last-processed endpoint
(the per-interface map is re-initialised per endpoint), and the name map
holds the last endpoint's name. -/
theorem c10_last_endpoint_addrs_win (ports : List Port)
    (e1 e2 : EthernetEndpoint) (n : String) (phys : List (String × String))
    (m1 m2 : List (String × Nat))
    (hphys : buildPhysIntf [] ports = .ok phys)
    (hn1 : ¬ e1.getPortName = "") (hn2 : ¬ e2.getPortName = "")
    (hr1 : lookupStr phys e1.getPortName = some n)
    (hr2 : lookupStr phys e2.getPortName = some n)
    (ha1 : procAddrs [] e1.ipv4Addresses = .ok m1)
    (ha2 : procAddrs [] e2.ipv4Addresses = .ok m2) :
    portsToLinux ports [⟨[e1, e2]⟩] = .ok ([(n, ⟨m2⟩)], [(n, e2.name)]) := by
  simp [portsToLinux, hphys, processDevices, processEndpoints, hn1, hn2,
    hr1, hr2, ha1, ha2, mapInsert]

/-- Witness for C10: endpoint `eA` declares 10.0.0.1/24 and endpoint `eB`
declares 192.0.2.1/31, both bound to port `p1` at `eth0`; the result for
`eth0` holds only `eB`'s address. -/
theorem c10_witness :
    portsToLinux [⟨"p1", some "eth0"⟩]
      [⟨[⟨"eA", some "p1", [⟨"10.0.0.1", some 24⟩]⟩,
          ⟨"eB", some "p1", [⟨"192.0.2.1", some 31⟩]⟩]⟩] =
      .ok ([("eth0", ⟨[("192.0.2.1", 31)]⟩)], [("eth0", "eB")]) :=
  c10_last_endpoint_addrs_win [⟨"p1", some "eth0"⟩]
    ⟨"eA", some "p1", [⟨"10.0.0.1", some 24⟩]⟩
    ⟨"eB", some "p1", [⟨"192.0.2.1", some 31⟩]⟩
    "eth0" [("p1", "eth0")] [("10.0.0.1", 24)] [("192.0.2.1", 31)]
    (by decide) (by decide) (by decide) (by decide) (by decide)
    (by decide) (by decide)
